import Mathlib

/-!
Verification of the Rygar arcade emulator main-board model (src/rygar.c).

The definitions below are a shallow embedding of the C source: the bus
pin word is a record of the fields the tick callback reads and writes,
byte arrays are total functions from addresses to byte values, and the
C `int` counters are `Int`.  Functions named after C functions follow
the corresponding C bodies line by line; helpers from headers that are
not part of the repository snapshot (tilemap.h, chips/mem.h) are
modelled from the specification and say so in their doc comments.
-/

namespace Rygar

/-- Constant from rygar.c line 90: the 4 MHz CPU clock. -/
def CPU_FREQ : Int := 4000000

/-- Constant from rygar.c line 91: ticks per vertical sync period.
C integer division truncates, so this is 66_666, not 66_667. -/
def VSYNC_PERIOD_4MHZ : Int := 4000000 / 60

/-- Constant from rygar.c line 92: ticks per vertical blank.
With C truncating division this is (66_666 / 525) * 42 = 126 * 42 = 5_292. -/
def VBLANK_DURATION_4MHZ : Int := 4000000 / 60 / 525 * (525 - 483)

/-- Memory-map constants from rygar.c lines 26-77. -/
def RAM_START : Nat := 0xc000
def RAM_END : Nat := 0xefff
def CHAR_RAM_START : Nat := 0xd000
def CHAR_RAM_END : Nat := 0xd7ff
def FG_RAM_START : Nat := 0xd800
def FG_RAM_END : Nat := 0xdbff
def BG_RAM_START : Nat := 0xdc00
def BG_RAM_END : Nat := 0xdfff
def PALETTE_RAM_START : Nat := 0xe800
def PALETTE_RAM_END : Nat := 0xefff
def BANK_SIZE : Nat := 0x8000
def BANK_WINDOW_SIZE : Nat := 0x800
def BANK_WINDOW_START : Nat := 0xf000
def BANK_WINDOW_END : Nat := 0xf7ff
def JOYSTICK1 : Nat := 0xf800
def BUTTONS1 : Nat := 0xf801
def SYS1 : Nat := 0xf804
def DIP_SW2_H : Nat := 0xf809
def FG_SCROLL_START : Nat := 0xf800
def FG_SCROLL_END : Nat := 0xf802
def BG_SCROLL_START : Nat := 0xf803
def BG_SCROLL_END : Nat := 0xf805
def BANK_SWITCH : Nat := 0xf808
def SCROLL_OFFSET : Nat := 48

/-- The Z80 pin word as seen by the tick callback: 16-bit address,
8-bit data, and the control flags the callback reads or writes
(rygar.c lines 192-244 use Z80_GET_ADDR, Z80_GET_DATA, Z80_SET_DATA,
Z80_MREQ, Z80_WR, Z80_RD, Z80_IORQ, Z80_M1 and Z80_INT). -/
structure Pins where
  addr : Nat
  data : Nat
  mreq : Bool
  rd : Bool
  wr : Bool
  iorq : Bool
  m1 : Bool
  intPin : Bool

/-- Minimal tilemap state visible to rygar.c: the horizontal scroll
register and the dirty bitset, plus the grid dimensions fixed at init
(rygar.c lines 316-357). -/
structure Tilemap where
  cols : Nat
  rows : Nat
  scrollX : Nat
  dirty : Nat → Bool

/-- Modelled from the spec: tilemap.h is not part of the snapshot.
Section 4.4 says mark_tile_dirty sets bit `idx mod (cols*rows)` of the
dirty bitset. -/
def tilemap_mark_tile_dirty (t : Tilemap) (idx : Nat) : Tilemap :=
  { t with dirty := fun i => if i = idx % (t.cols * t.rows) then true else t.dirty i }

/-- Modelled from the spec: tilemap.h is not part of the snapshot.
Section 4.4 says set_scroll_x stores the value as a 16-bit wrap value. -/
def tilemap_set_scroll_x (t : Tilemap) (v : Nat) : Tilemap :=
  { t with scrollX := v % 0x10000 }

/-- The mainboard state mutated by the tick callback (rygar.c lines
94-125).  The RAM regions behind mem_map_ram are modelled as one mapped
byte function `mem`; the banked ROM is a byte function of its own. -/
structure Mainboard where
  mem : Nat → Nat
  bankedRom : Nat → Nat
  currentBank : Nat
  joystick : Nat
  buttons : Nat
  sys : Nat
  fgScroll : Nat → Nat
  bgScroll : Nat → Nat

/-- Modelled from the spec: chips/mem.h is not part of the snapshot.
Invariant 4 of section 3 says a read returns the last written byte, so a
write stores the byte at the address. -/
def mem_wr (m : Nat → Nat) (addr data : Nat) : Nat → Nat :=
  fun a => if a = addr then data else m a

/-- The whole machine state used by the tick callback (rygar.c lines
127-143): mainboard, the three tilemaps, the 1024-entry 32-bit palette
cache, and the two signed tick counters. -/
structure RygarState where
  main : Mainboard
  charTilemap : Tilemap
  fgTilemap : Tilemap
  bgTilemap : Tilemap
  palette : Nat → Nat
  vsyncCount : Int
  vblankCount : Int

/-- rygar_update_palette (rygar.c lines 156-172): odd palette-RAM
offsets carry the RRRRGGGG byte, even offsets the xxxxBBBB byte;
nibbles are replicated to fill the 8-bit channels and the alpha byte is
forced to 0xff. -/
def rygar_update_palette (pal : Nat → Nat) (addr data : Nat) : Nat → Nat :=
  let pal_index := addr >>> 1
  let c := pal pal_index
  let c2 :=
    if addr &&& 1 = 1 then
      let r := (data &&& 0xf0) ||| ((data >>> 4) &&& 0x0f)
      let g := (data &&& 0x0f) ||| ((data <<< 4) &&& 0xf0)
      0xff000000 ||| (c &&& 0x00ff0000) ||| (g <<< 8) ||| r
    else
      let b := (data &&& 0x0f) ||| ((data <<< 4) &&& 0xf0)
      0xff000000 ||| (c &&& 0x0000ffff) ||| (b <<< 16)
  fun i => if i = pal_index then c2 else pal i

/-- The vsync/vblank counter update and INT drive at the top of the
tick callback (rygar.c lines 178-190).  Returns the new vsync_count,
the new vblank_count, and whether the INT pin is OR-ed into the pin
word on this call. -/
def vsyncUpdate (numTicks vsync vblank : Int) : Int × Int × Bool :=
  let v0 := vsync - numTicks
  let p : Int × Int :=
    if v0 ≤ 0 then (v0 + VSYNC_PERIOD_4MHZ, VBLANK_DURATION_4MHZ) else (v0, vblank)
  if p.2 > 0 then (p.1, p.2 - numTicks, true) else (p.1, 0, false)

/-- The index into banked_rom used by the bank window read
(rygar.c line 225). -/
def banked_addr (s : RygarState) (addr : Nat) : Nat :=
  addr - BANK_WINDOW_START + s.main.currentBank * BANK_WINDOW_SIZE

/-- The write decode of the tick callback (rygar.c lines 195-220). -/
def busWrite (s : RygarState) (addr data : Nat) : RygarState :=
  if RAM_START ≤ addr ∧ addr ≤ RAM_END then
    let s1 := { s with main := { s.main with mem := mem_wr s.main.mem addr data } }
    if CHAR_RAM_START ≤ addr ∧ addr ≤ CHAR_RAM_END then
      { s1 with charTilemap :=
          tilemap_mark_tile_dirty s1.charTilemap ((addr - CHAR_RAM_START) &&& 0x3ff) }
    else if FG_RAM_START ≤ addr ∧ addr ≤ FG_RAM_END then
      { s1 with fgTilemap :=
          tilemap_mark_tile_dirty s1.fgTilemap ((addr - FG_RAM_START) &&& 0x1ff) }
    else if BG_RAM_START ≤ addr ∧ addr ≤ BG_RAM_END then
      { s1 with bgTilemap :=
          tilemap_mark_tile_dirty s1.bgTilemap ((addr - BG_RAM_START) &&& 0x1ff) }
    else if PALETTE_RAM_START ≤ addr ∧ addr ≤ PALETTE_RAM_END then
      { s1 with palette := rygar_update_palette s1.palette (addr - PALETTE_RAM_START) data }
    else s1
  else if FG_SCROLL_START ≤ addr ∧ addr ≤ FG_SCROLL_END then
    let fg := fun i => if i = addr - FG_SCROLL_START then data else s.main.fgScroll i
    { s with
      main := { s.main with fgScroll := fg },
      fgTilemap := tilemap_set_scroll_x s.fgTilemap ((fg 1 <<< 8 ||| fg 0) + SCROLL_OFFSET) }
  else if BG_SCROLL_START ≤ addr ∧ addr ≤ BG_SCROLL_END then
    let bg := fun i => if i = addr - BG_SCROLL_START then data else s.main.bgScroll i
    { s with
      main := { s.main with bgScroll := bg },
      bgTilemap := tilemap_set_scroll_x s.bgTilemap ((bg 1 <<< 8 ||| bg 0) + SCROLL_OFFSET) }
  else if addr = BANK_SWITCH then
    { s with main := { s.main with currentBank := data >>> 3 } }
  else s

/-- The read decode of the tick callback (rygar.c lines 221-237). -/
def busRead (s : RygarState) (addr : Nat) : Nat :=
  if addr ≤ RAM_END then s.main.mem addr
  else if BANK_WINDOW_START ≤ addr ∧ addr ≤ BANK_WINDOW_END then
    s.main.bankedRom (banked_addr s addr)
  else if addr = JOYSTICK1 then s.main.joystick
  else if addr = BUTTONS1 then s.main.buttons
  else if addr = SYS1 then s.main.sys
  else if addr = DIP_SW2_H then 0x8
  else 0

/-- rygar_tick_main (rygar.c lines 177-245): update the counters and
drive INT, then decode the bus cycle, and clear INT on an
IORQ-and-M1 interrupt acknowledge. -/
def rygar_tick_main (numTicks : Int) (s : RygarState) (pins : Pins) : RygarState × Pins :=
  let u := vsyncUpdate numTicks s.vsyncCount s.vblankCount
  let s1 := { s with vsyncCount := u.1, vblankCount := u.2.1 }
  let pins1 := { pins with intPin := pins.intPin || u.2.2 }
  if pins1.mreq then
    if pins1.wr then (busWrite s1 pins1.addr pins1.data, pins1)
    else if pins1.rd then (s1, { pins1 with data := busRead s1 pins1.addr })
    else (s1, pins1)
  else if pins1.iorq && pins1.m1 then (s1, { pins1 with intPin := false })
  else (s1, pins1)

/-- The machine state set up by rygar_init (rygar.c lines 371-395):
everything zeroed, vsync_count primed with the vsync period, and the
tilemap dimensions fixed by the tilemap_init calls (char 32 by 32,
fg and bg 32 by 16).  The compiled-in ROM blobs are opaque, so the
banked ROM and mapped memory contents are modelled as all zero. -/
def rygar_init_state : RygarState where
  main :=
    { mem := fun _ => 0
      bankedRom := fun _ => 0
      currentBank := 0
      joystick := 0
      buttons := 0
      sys := 0
      fgScroll := fun _ => 0
      bgScroll := fun _ => 0 }
  charTilemap := { cols := 32, rows := 32, scrollX := 0, dirty := fun _ => false }
  fgTilemap := { cols := 32, rows := 16, scrollX := 0, dirty := fun _ => false }
  bgTilemap := { cols := 32, rows := 16, scrollX := 0, dirty := fun _ => false }
  palette := fun _ => 0
  vsyncCount := VSYNC_PERIOD_4MHZ
  vblankCount := 0

/-- An idle bus cycle: no memory request, no interrupt acknowledge,
INT not carried in. -/
def idlePins : Pins where
  addr := 0
  data := 0
  mreq := false
  rd := false
  wr := false
  iorq := false
  m1 := false
  intPin := false

/-- A write bus cycle for a given address and data byte. -/
def writePins (addr data : Nat) : Pins where
  addr := addr
  data := data
  mreq := true
  rd := false
  wr := true
  iorq := false
  m1 := false
  intPin := false

/-- A read bus cycle for a given address. -/
def readPins (addr : Nat) : Pins where
  addr := addr
  data := 0
  mreq := true
  rd := true
  wr := false
  iorq := false
  m1 := false
  intPin := false

/-- An interrupt-acknowledge bus cycle: IORQ and M1, no memory
request. -/
def ackPins : Pins where
  addr := 0
  data := 0
  mreq := false
  rd := false
  wr := false
  iorq := true
  m1 := true
  intPin := true

/-- One call of the counter part of the tick callback with a single
tick, as delivered by z80_exec one tick per call: the new
(vsync_count, vblank_count) pair and the INT assert flag. -/
def tickCounter (s : Int × Int) : (Int × Int) × Bool :=
  (((vsyncUpdate 1 s.1 s.2).1, (vsyncUpdate 1 s.1 s.2).2.1), (vsyncUpdate 1 s.1 s.2).2.2)

/-- The counter state after n one-tick calls. -/
def traceC (s : Int × Int) : Nat → Int × Int
  | 0 => s
  | n + 1 => (tickCounter (traceC s n)).1

/-- How many of the first n one-tick calls assert INT. -/
def countINT (s : Int × Int) : Nat → Nat
  | 0 => 0
  | n + 1 => countINT s n + (if (tickCounter (traceC s n)).2 then 1 else 0)

/-- The counter state right after rygar_init. -/
def initCounters : Int × Int := (VSYNC_PERIOD_4MHZ, 0)

/-- The counter state right after a vsync reload tick. -/
def steadyCounters : Int × Int := (VSYNC_PERIOD_4MHZ, VBLANK_DURATION_4MHZ - 1)

/-! ### Bit-level helper lemmas for the palette cache -/

/-- Test bit of the byte mask 0xff. -/
theorem testBit_ff (j : Nat) : Nat.testBit 0xff j = decide (j < 8) := by
  have h : (0xff : Nat) = 2 ^ 8 - 1 := by norm_num
  rw [h, Nat.testBit_two_pow_sub_one]

/-- Test bit of the low-halfword mask 0xffff. -/
theorem testBit_ffff (j : Nat) : Nat.testBit 0xffff j = decide (j < 16) := by
  have h : (0xffff : Nat) = 2 ^ 16 - 1 := by norm_num
  rw [h, Nat.testBit_two_pow_sub_one]

/-- Test bit of the blue-byte mask 0xff0000. -/
theorem testBit_ff0000 (j : Nat) :
    Nat.testBit 0xff0000 j = (decide (16 ≤ j) && decide (j - 16 < 8)) := by
  have h : (0xff0000 : Nat) = (2 ^ 8 - 1) <<< 16 := by
    rw [Nat.shiftLeft_eq]; norm_num
  rw [h, Nat.testBit_shiftLeft, Nat.testBit_two_pow_sub_one]

/-- Test bit of the alpha-byte mask 0xff000000. -/
theorem testBit_ff000000 (j : Nat) :
    Nat.testBit 0xff000000 j = (decide (24 ≤ j) && decide (j - 24 < 8)) := by
  have h : (0xff000000 : Nat) = (2 ^ 8 - 1) <<< 24 := by
    rw [Nat.shiftLeft_eq]; norm_num
  rw [h, Nat.testBit_shiftLeft, Nat.testBit_two_pow_sub_one]

/-- A byte value has no bits at position 8 or above. -/
theorem testBit_byte_high {x j : Nat} (hx : x < 256) (hj : 8 ≤ j) :
    Nat.testBit x j = false := by
  have h : (256 : Nat) ≤ 2 ^ j := by
    calc (256 : Nat) = 2 ^ 8 := by norm_num
    _ ≤ 2 ^ j := Nat.pow_le_pow_right (by norm_num) hj
  exact Nat.testBit_lt_two_pow (Nat.lt_of_lt_of_le hx h)

/-- The nibble-replicated byte built from the low nibble is a byte. -/
theorem nibble_lo_lt (d : Nat) : (d &&& 0x0f) ||| ((d <<< 4) &&& 0xf0) < 256 := by
  have h : (d &&& 0x0f) ||| ((d <<< 4) &&& 0xf0) < 2 ^ 8 :=
    Nat.or_lt_two_pow (Nat.lt_of_le_of_lt Nat.and_le_right (by norm_num))
      (Nat.lt_of_le_of_lt Nat.and_le_right (by norm_num))
  simpa using h

/-- The nibble-replicated byte built from the high nibble is a byte. -/
theorem nibble_hi_lt (d : Nat) : (d &&& 0xf0) ||| ((d >>> 4) &&& 0x0f) < 256 := by
  have h : (d &&& 0xf0) ||| ((d >>> 4) &&& 0x0f) < 2 ^ 8 :=
    Nat.or_lt_two_pow (Nat.lt_of_le_of_lt Nat.and_le_right (by norm_num))
      (Nat.lt_of_le_of_lt Nat.and_le_right (by norm_num))
  simpa using h

/-- Alpha byte of the word produced by an even palette write. -/
theorem even_alpha (c b : Nat) :
    (((0xff000000 ||| (c &&& 0xffff) ||| (b <<< 16)) >>> 24) &&& 0xff) = 0xff := by
  refine Nat.eq_of_testBit_eq fun j => ?_
  by_cases hj : j < 8
  · simp [testBit_ff000000, testBit_ff, testBit_ffff, hj,
      show (24 : Nat) ≤ 24 + j by omega, show 24 + j - 24 < 8 by omega,
      show ¬ (24 + j < 16) by omega]
  · simp [testBit_ff, hj]

/-- Blue byte of the word produced by an even palette write. -/
theorem even_blue (c b : Nat) (hb : b < 256) :
    (((0xff000000 ||| (c &&& 0xffff) ||| (b <<< 16)) >>> 16) &&& 0xff) = b := by
  refine Nat.eq_of_testBit_eq fun j => ?_
  by_cases hj : j < 8
  · simp [testBit_ff000000, testBit_ff, testBit_ffff, hj,
      show ¬ (24 : Nat) ≤ 16 + j by omega, show ¬ (16 + j < 16) by omega,
      show (16 : Nat) ≤ 16 + j by omega, show 16 + j - 16 = j by omega]
  · rw [testBit_byte_high hb (by omega)]
    simp [testBit_ff, hj]

/-- An even palette write preserves the red byte. -/
theorem even_red (c b : Nat) :
    ((0xff000000 ||| (c &&& 0xffff) ||| (b <<< 16)) &&& 0xff) = c &&& 0xff := by
  refine Nat.eq_of_testBit_eq fun j => ?_
  by_cases hj : j < 8
  · simp [testBit_ff000000, testBit_ff, testBit_ffff, hj,
      show ¬ (24 : Nat) ≤ j by omega, show j < 16 by omega,
      show ¬ (16 : Nat) ≤ j by omega]
  · simp [testBit_ff, hj]

/-- An even palette write preserves the green byte. -/
theorem even_green (c b : Nat) :
    (((0xff000000 ||| (c &&& 0xffff) ||| (b <<< 16)) >>> 8) &&& 0xff) =
      (c >>> 8) &&& 0xff := by
  refine Nat.eq_of_testBit_eq fun j => ?_
  by_cases hj : j < 8
  · simp [testBit_ff000000, testBit_ff, testBit_ffff, hj,
      show ¬ (24 : Nat) ≤ 8 + j by omega, show 8 + j < 16 by omega,
      show ¬ (16 : Nat) ≤ 8 + j by omega]
  · simp [testBit_ff, hj]

/-- Alpha byte of the word produced by an odd palette write. -/
theorem odd_alpha (c g r : Nat) :
    (((0xff000000 ||| (c &&& 0xff0000) ||| (g <<< 8) ||| r) >>> 24) &&& 0xff) = 0xff := by
  refine Nat.eq_of_testBit_eq fun j => ?_
  by_cases hj : j < 8
  · simp [testBit_ff000000, testBit_ff, testBit_ff0000, hj,
      show (24 : Nat) ≤ 24 + j by omega, show 24 + j - 24 < 8 by omega,
      show ¬ (24 + j - 16 < 8) by omega]
  · simp [testBit_ff, hj]

/-- Red byte of the word produced by an odd palette write. -/
theorem odd_red (c g r : Nat) (hr : r < 256) :
    ((0xff000000 ||| (c &&& 0xff0000) ||| (g <<< 8) ||| r) &&& 0xff) = r := by
  refine Nat.eq_of_testBit_eq fun j => ?_
  by_cases hj : j < 8
  · simp [testBit_ff000000, testBit_ff, testBit_ff0000, hj,
      show ¬ (24 : Nat) ≤ j by omega, show ¬ (16 : Nat) ≤ j by omega,
      show ¬ (8 : Nat) ≤ j by omega]
  · rw [testBit_byte_high hr (by omega)]
    simp [testBit_ff, hj]

/-- Green byte of the word produced by an odd palette write. -/
theorem odd_green (c g r : Nat) (hg : g < 256) (hr : r < 256) :
    (((0xff000000 ||| (c &&& 0xff0000) ||| (g <<< 8) ||| r) >>> 8) &&& 0xff) = g := by
  refine Nat.eq_of_testBit_eq fun j => ?_
  by_cases hj : j < 8
  · simp [testBit_ff000000, testBit_ff, testBit_ff0000, hj,
      show ¬ (24 : Nat) ≤ 8 + j by omega, show ¬ (16 : Nat) ≤ 8 + j by omega,
      show (8 : Nat) ≤ 8 + j by omega, show 8 + j - 8 = j by omega,
      testBit_byte_high hr (show (8 : Nat) ≤ 8 + j by omega)]
  · rw [testBit_byte_high hg (by omega)]
    simp [testBit_ff, hj]

/-- An odd palette write preserves the blue byte. -/
theorem odd_blue (c g r : Nat) (hg : g < 256) (hr : r < 256) :
    (((0xff000000 ||| (c &&& 0xff0000) ||| (g <<< 8) ||| r) >>> 16) &&& 0xff) =
      (c >>> 16) &&& 0xff := by
  refine Nat.eq_of_testBit_eq fun j => ?_
  by_cases hj : j < 8
  · simp [testBit_ff000000, testBit_ff, testBit_ff0000, hj,
      show ¬ (24 : Nat) ≤ 16 + j by omega, show (16 : Nat) ≤ 16 + j by omega,
      show 16 + j - 16 < 8 by omega, show 16 + j - 16 = j by omega,
      testBit_byte_high hr (show (8 : Nat) ≤ 16 + j by omega),
      testBit_byte_high hg (show (8 : Nat) ≤ 16 + j - 8 by omega)]
  · simp [testBit_ff, hj]

/-! ### Characterisation of rygar_update_palette -/

/-- The word stored by a palette write at an even offset. -/
theorem update_palette_at_even (pal : Nat → Nat) (off d : Nat) (he : off % 2 = 0) :
    rygar_update_palette pal off d (off >>> 1) =
      0xff000000 ||| (pal (off >>> 1) &&& 0x0000ffff) |||
        (((d &&& 0x0f) ||| ((d <<< 4) &&& 0xf0)) <<< 16) := by
  unfold rygar_update_palette
  simp [Nat.and_one_is_mod, he]

/-- The word stored by a palette write at an odd offset. -/
theorem update_palette_at_odd (pal : Nat → Nat) (off d : Nat) (ho : off % 2 = 1) :
    rygar_update_palette pal off d (off >>> 1) =
      0xff000000 ||| (pal (off >>> 1) &&& 0x00ff0000) |||
        (((d &&& 0x0f) ||| ((d <<< 4) &&& 0xf0)) <<< 8) |||
        ((d &&& 0xf0) ||| ((d >>> 4) &&& 0x0f)) := by
  unfold rygar_update_palette
  simp [Nat.and_one_is_mod, ho]

/-- A palette write leaves every other palette cache entry unchanged. -/
theorem update_palette_other (pal : Nat → Nat) (off d i : Nat) (hi : i ≠ off >>> 1) :
    rygar_update_palette pal off d i = pal i := by
  unfold rygar_update_palette
  simp [hi]

/-- A CPU write in the palette RAM range reaches rygar_update_palette
with the offset into palette RAM, and touches no other part of the
palette path. -/
theorem tick_palette_write (s : RygarState) (p : Pins)
    (hm : p.mreq = true) (hw : p.wr = true)
    (ha1 : PALETTE_RAM_START ≤ p.addr) (ha2 : p.addr ≤ PALETTE_RAM_END) :
    (rygar_tick_main 1 s p).1.palette =
      rygar_update_palette s.palette (p.addr - PALETTE_RAM_START) p.data := by
  have h1 : RAM_START ≤ p.addr ∧ p.addr ≤ RAM_END := by
    simp only [RAM_START, RAM_END, PALETTE_RAM_START, PALETTE_RAM_END] at *
    omega
  have h2 : ¬ (CHAR_RAM_START ≤ p.addr ∧ p.addr ≤ CHAR_RAM_END) := by
    simp only [CHAR_RAM_START, CHAR_RAM_END, PALETTE_RAM_START, PALETTE_RAM_END] at *
    omega
  have h3 : ¬ (FG_RAM_START ≤ p.addr ∧ p.addr ≤ FG_RAM_END) := by
    simp only [FG_RAM_START, FG_RAM_END, PALETTE_RAM_START, PALETTE_RAM_END] at *
    omega
  have h4 : ¬ (BG_RAM_START ≤ p.addr ∧ p.addr ≤ BG_RAM_END) := by
    simp only [BG_RAM_START, BG_RAM_END, PALETTE_RAM_START, PALETTE_RAM_END] at *
    omega
  have h5 : PALETTE_RAM_START ≤ p.addr ∧ p.addr ≤ PALETTE_RAM_END := ⟨ha1, ha2⟩
  simp [rygar_tick_main, busWrite, hm, hw, h1, h2, h3, h4, h5]

/-! ### Claim theorems -/

/-- Claim C3, counterexample: starting from a zeroed palette cache,
writing 0x05 to palette-RAM offset 0x000 and then 0xAB to offset 0x001
leaves entry 0 at 0xFF55BBAA, not at the claimed 0xFF5500BA. -/
theorem C3_counterexample :
    rygar_update_palette (rygar_update_palette (fun _ => 0) 0x000 0x05) 0x001 0xab 0
      = 0xff55bbaa ∧
    rygar_update_palette (rygar_update_palette (fun _ => 0) 0x000 0x05) 0x001 0xab 0
      ≠ 0xff5500ba := by
  constructor
  · decide
  · decide

/-- Claim C3 as amended: writing 0x05 to palette-RAM offset 0x000 over a
zeroed cache gives entry 0 the value 0xFF550000, and a following write
of 0xAB to offset 0x001 gives it 0xFF55BBAA, whose bytes are the RGBA
pixel R = 0xAA, G = 0xBB, B = 0x55, A = 0xFF. -/
theorem C3_palette_trace :
    rygar_update_palette (fun _ => 0) 0x000 0x05 0 = 0xff550000 ∧
    rygar_update_palette (rygar_update_palette (fun _ => 0) 0x000 0x05) 0x001 0xab 0
      = 0xff55bbaa ∧
    (0xff55bbaa : Nat) &&& 0xff = 0xaa ∧
    ((0xff55bbaa : Nat) >>> 8) &&& 0xff = 0xbb ∧
    ((0xff55bbaa : Nat) >>> 16) &&& 0xff = 0x55 ∧
    ((0xff55bbaa : Nat) >>> 24) &&& 0xff = 0xff := by
  refine ⟨by decide, by decide, by decide, by decide, by decide, by decide⟩

/-- Claim C6: a CPU write of a byte b to a palette-RAM address leaves
the alpha byte of the cached entry at 0xFF, and the channel selected by
the parity of the offset carries the nibble-replicated decoding of b:
the blue byte on an even offset, the red and green bytes on an odd
offset. -/
theorem C6_palette_decode (s : RygarState) (p : Pins)
    (hm : p.mreq = true) (hw : p.wr = true) (_hd : p.data < 256)
    (ha1 : PALETTE_RAM_START ≤ p.addr) (ha2 : p.addr ≤ PALETTE_RAM_END) :
    (((rygar_tick_main 1 s p).1.palette ((p.addr - PALETTE_RAM_START) >>> 1) >>> 24)
        &&& 0xff = 0xff) ∧
    ((p.addr - PALETTE_RAM_START) % 2 = 0 →
      ((rygar_tick_main 1 s p).1.palette ((p.addr - PALETTE_RAM_START) >>> 1) >>> 16)
          &&& 0xff = (p.data &&& 0x0f) ||| ((p.data <<< 4) &&& 0xf0)) ∧
    ((p.addr - PALETTE_RAM_START) % 2 = 1 →
      ((rygar_tick_main 1 s p).1.palette ((p.addr - PALETTE_RAM_START) >>> 1))
          &&& 0xff = (p.data &&& 0xf0) ||| ((p.data >>> 4) &&& 0x0f) ∧
      ((rygar_tick_main 1 s p).1.palette ((p.addr - PALETTE_RAM_START) >>> 1) >>> 8)
          &&& 0xff = (p.data &&& 0x0f) ||| ((p.data <<< 4) &&& 0xf0)) := by
  rw [tick_palette_write s p hm hw ha1 ha2]
  rcases Nat.mod_two_eq_zero_or_one (p.addr - PALETTE_RAM_START) with he | ho
  · rw [update_palette_at_even _ _ _ he]
    refine ⟨even_alpha _ _, fun _ => even_blue _ _ (nibble_lo_lt _), fun h => ?_⟩
    rw [he] at h
    exact absurd h (by decide)
  · rw [update_palette_at_odd _ _ _ ho]
    refine ⟨odd_alpha _ _ _, fun h => ?_, fun _ =>
      ⟨odd_red _ _ _ (nibble_hi_lt _), odd_green _ _ _ (nibble_lo_lt _) (nibble_hi_lt _)⟩⟩
    rw [ho] at h
    exact absurd h (by decide)

/-- Claim C6 witness: writing 0x05 to palette RAM address 0xE800 from
the reset state leaves entry 0 with alpha byte 0xFF and blue byte 0x55. -/
theorem C6_palette_decode_witness :
    (((rygar_tick_main 1 rygar_init_state (writePins 0xe800 0x05)).1.palette
        ((0xe800 - PALETTE_RAM_START) >>> 1) >>> 24) &&& 0xff = 0xff) ∧
    ((rygar_tick_main 1 rygar_init_state (writePins 0xe800 0x05)).1.palette
        ((0xe800 - PALETTE_RAM_START) >>> 1) >>> 16) &&& 0xff = 0x55 := by
  have h := C6_palette_decode rygar_init_state (writePins 0xe800 0x05)
    rfl rfl (by decide) (by decide) (by decide)
  exact ⟨h.1, (h.2.1 (by decide)).trans (by decide)⟩

/-- Claim C7: a palette-cache update for offset off touches only entry
off >>> 1; within that entry an even-offset write preserves the red and
green bytes and an odd-offset write preserves the blue byte. -/
theorem C7_palette_locality (pal : Nat → Nat) (off d : Nat) (_hd : d < 256) :
    (∀ i, i ≠ off >>> 1 → rygar_update_palette pal off d i = pal i) ∧
    (off % 2 = 0 →
      (rygar_update_palette pal off d (off >>> 1)) &&& 0xff
          = pal (off >>> 1) &&& 0xff ∧
      ((rygar_update_palette pal off d (off >>> 1)) >>> 8) &&& 0xff
          = (pal (off >>> 1) >>> 8) &&& 0xff) ∧
    (off % 2 = 1 →
      ((rygar_update_palette pal off d (off >>> 1)) >>> 16) &&& 0xff
          = (pal (off >>> 1) >>> 16) &&& 0xff) := by
  refine ⟨fun i hi => update_palette_other pal off d i hi, fun he => ?_, fun ho => ?_⟩
  · rw [update_palette_at_even _ _ _ he]
    exact ⟨even_red _ _, even_green _ _⟩
  · rw [update_palette_at_odd _ _ _ ho]
    exact odd_blue _ _ _ (nibble_lo_lt _) (nibble_hi_lt _)

/-- Claim C7 witness: writing 0x0C at even offset 4 changes entry 2
only, and preserves the red and green bytes of entry 2. -/
theorem C7_palette_locality_witness :
    rygar_update_palette (fun _ => 0x11223344) 4 0x0c 1 = 0x11223344 ∧
    (rygar_update_palette (fun _ => 0x11223344) 4 0x0c 2) &&& 0xff = 0x44 ∧
    ((rygar_update_palette (fun _ => 0x11223344) 4 0x0c 2) >>> 8) &&& 0xff = 0x33 := by
  have h := C7_palette_locality (fun _ => 0x11223344) 4 0x0c (by decide)
  refine ⟨h.1 1 (by decide), ?_, ?_⟩
  · exact ((h.2.1 (by decide)).1).trans (by decide)
  · exact ((h.2.1 (by decide)).2).trans (by decide)

/-- Claim C2: the bank-switch write keeps data bit 7, contradicting the
DO3-DO6 note in the source and the 16-bank invariant: writing 0x80 to
0xF808 yields bank 16, for which the bank-window index runs past the
32 KiB banked ROM. -/
theorem C2_bank_overflow :
    (rygar_tick_main 1 rygar_init_state (writePins 0xf808 0x80)).1.main.currentBank = 16 ∧
    (rygar_tick_main 1 rygar_init_state (writePins 0xf808 0x80)).1.main.currentBank
      ≠ (0x80 &&& 0x78) >>> 3 ∧
    ¬ ((rygar_tick_main 1 rygar_init_state (writePins 0xf808 0x80)).1.main.currentBank
        * 0x800 + 0x7ff < 0x8000) ∧
    banked_addr (rygar_tick_main 1 rygar_init_state (writePins 0xf808 0x80)).1 0xf000
      = 0x8000 ∧
    ¬ (banked_addr (rygar_tick_main 1 rygar_init_state (writePins 0xf808 0x80)).1 0xf000
        < BANK_SIZE) := by
  refine ⟨by decide, by decide, by decide, by decide, by decide⟩

/-- On a write cycle the tick callback routes the state through
busWrite on the counter-updated state. -/
theorem tick_write (s : RygarState) (p : Pins)
    (hm : p.mreq = true) (hw : p.wr = true) :
    (rygar_tick_main 1 s p).1 =
      busWrite { s with vsyncCount := (vsyncUpdate 1 s.vsyncCount s.vblankCount).1,
                        vblankCount := (vsyncUpdate 1 s.vsyncCount s.vblankCount).2.1 }
        p.addr p.data := by
  simp [rygar_tick_main, hm, hw]

/-- On a read cycle the tick callback returns the busRead byte on the
data bus. -/
theorem tick_read (s : RygarState) (p : Pins)
    (hm : p.mreq = true) (hw : p.wr = false) (hr : p.rd = true) :
    (rygar_tick_main 1 s p).2.data = busRead s p.addr := by
  simp [rygar_tick_main, busRead, banked_addr, hm, hw, hr]

/-- Claim C9, counterexample: a read at 0xF807 returns 0x00, not the
claimed 0x08; the constant 0x08 sits at 0xF809 (DIP_SW2_H). -/
theorem C9_counterexample :
    (rygar_tick_main 1 rygar_init_state (readPins 0xf807)).2.data = 0 ∧
    (rygar_tick_main 1 rygar_init_state (readPins 0xf807)).2.data ≠ 0x08 ∧
    (rygar_tick_main 1 rygar_init_state (readPins 0xf809)).2.data = 0x08 := by
  refine ⟨by decide, by decide, by decide⟩

/-- Claim C9 as amended: for reads above 0xEFFF, the bank window
0xF000..=0xF7FF returns the banked ROM byte, 0xF800, 0xF801 and 0xF804
return joystick, buttons and sys, 0xF809 returns the constant 0x08,
and every other address returns 0x00. -/
theorem C9_read_routing (s : RygarState) (p : Pins)
    (hm : p.mreq = true) (hw : p.wr = false) (hr : p.rd = true)
    (hlo : RAM_END < p.addr) (hhi : p.addr < 0x10000) :
    (rygar_tick_main 1 s p).2.data =
      if BANK_WINDOW_START ≤ p.addr ∧ p.addr ≤ BANK_WINDOW_END then
        s.main.bankedRom (p.addr - BANK_WINDOW_START + s.main.currentBank * BANK_WINDOW_SIZE)
      else if p.addr = JOYSTICK1 then s.main.joystick
      else if p.addr = BUTTONS1 then s.main.buttons
      else if p.addr = SYS1 then s.main.sys
      else if p.addr = DIP_SW2_H then 0x08
      else 0 := by
  rw [tick_read s p hm hw hr]
  unfold busRead banked_addr
  rw [if_neg (by simp only [RAM_END] at hlo ⊢; omega)]

/-- Claim C9 witness: with the joystick byte set to 3, a read at 0xF800
returns 3. -/
theorem C9_read_routing_witness :
    (rygar_tick_main 1
        { rygar_init_state with
          main := { rygar_init_state.main with joystick := 3 } }
        (readPins 0xf800)).2.data = 3 := by
  have h := C9_read_routing
    { rygar_init_state with main := { rygar_init_state.main with joystick := 3 } }
    (readPins 0xf800) rfl rfl rfl (by decide) (by decide)
  exact h.trans (by decide)

/-- Claim C8, counterexample: with both fg scroll latch bytes at 0xFF
the 16-bit tilemap scroll register wraps, so the stored scroll-X is
0x002F and not the unreduced 0xFFFF + 48 = 0x1002F. -/
theorem C8_counterexample :
    (rygar_tick_main 1
        (rygar_tick_main 1 rygar_init_state (writePins 0xf800 0xff)).1
        (writePins 0xf801 0xff)).1.fgTilemap.scrollX = 0x2f ∧
    (rygar_tick_main 1
        (rygar_tick_main 1 rygar_init_state (writePins 0xf800 0xff)).1
        (writePins 0xf801 0xff)).1.fgTilemap.scrollX ≠
      (((rygar_tick_main 1
          (rygar_tick_main 1 rygar_init_state (writePins 0xf800 0xff)).1
          (writePins 0xf801 0xff)).1.main.fgScroll 1) <<< 8 |||
        ((rygar_tick_main 1
          (rygar_tick_main 1 rygar_init_state (writePins 0xf800 0xff)).1
          (writePins 0xf801 0xff)).1.main.fgScroll 0)) + 48 := by
  refine ⟨by decide, by decide⟩

/-- Claim C8 as amended: a write into a scroll latch range stores the
byte and sets the tilemap scroll-X to the 16-bit wrap of
(latch1 <<< 8 ||| latch0) + 48, for the fg and the bg latches alike. -/
theorem C8_scroll (s : RygarState) (p : Pins)
    (hm : p.mreq = true) (hw : p.wr = true) :
    (FG_SCROLL_START ≤ p.addr → p.addr ≤ FG_SCROLL_END →
      (rygar_tick_main 1 s p).1.fgTilemap.scrollX =
        ((((rygar_tick_main 1 s p).1.main.fgScroll 1) <<< 8 |||
          ((rygar_tick_main 1 s p).1.main.fgScroll 0)) + SCROLL_OFFSET) % 0x10000) ∧
    (BG_SCROLL_START ≤ p.addr → p.addr ≤ BG_SCROLL_END →
      (rygar_tick_main 1 s p).1.bgTilemap.scrollX =
        ((((rygar_tick_main 1 s p).1.main.bgScroll 1) <<< 8 |||
          ((rygar_tick_main 1 s p).1.main.bgScroll 0)) + SCROLL_OFFSET) % 0x10000) := by
  rw [tick_write s p hm hw]
  constructor
  · intro h1 h2
    have hr : ¬ (RAM_START ≤ p.addr ∧ p.addr ≤ RAM_END) := by
      simp only [RAM_START, RAM_END, FG_SCROLL_START] at *
      omega
    have hf : FG_SCROLL_START ≤ p.addr ∧ p.addr ≤ FG_SCROLL_END := ⟨h1, h2⟩
    simp [busWrite, tilemap_set_scroll_x, hr, hf]
  · intro h1 h2
    have hr : ¬ (RAM_START ≤ p.addr ∧ p.addr ≤ RAM_END) := by
      simp only [RAM_START, RAM_END, BG_SCROLL_START] at *
      omega
    have hf : ¬ (FG_SCROLL_START ≤ p.addr ∧ p.addr ≤ FG_SCROLL_END) := by
      simp only [FG_SCROLL_START, FG_SCROLL_END, BG_SCROLL_START] at *
      omega
    have hb : BG_SCROLL_START ≤ p.addr ∧ p.addr ≤ BG_SCROLL_END := ⟨h1, h2⟩
    simp [busWrite, tilemap_set_scroll_x, hr, hf, hb]

/-- Claim C8 witness: writing 0x10 to 0xF800 and then 0x02 to 0xF801
sets the fg scroll-X register to 0x240. -/
theorem C8_scroll_witness :
    (rygar_tick_main 1
        (rygar_tick_main 1 rygar_init_state (writePins 0xf800 0x10)).1
        (writePins 0xf801 0x02)).1.fgTilemap.scrollX = 0x240 := by
  have h := (C8_scroll
    (rygar_tick_main 1 rygar_init_state (writePins 0xf800 0x10)).1
    (writePins 0xf801 0x02) rfl rfl).1 (by decide) (by decide)
  exact h.trans (by decide)

/-- Claim C10, counterexample: from the reset state, where the tilemap
scroll register is 0, the first write to the third fg scroll byte
0xF802 recomputes scroll-X from latches 0 and 1 and stores 48, so the
effective scroll-X does change. -/
theorem C10_counterexample :
    (rygar_tick_main 1 rygar_init_state (writePins 0xf802 0xab)).1.main.fgScroll 2
      = 0xab ∧
    rygar_init_state.fgTilemap.scrollX = 0 ∧
    (rygar_tick_main 1 rygar_init_state (writePins 0xf802 0xab)).1.fgTilemap.scrollX
      = 48 ∧
    (rygar_tick_main 1 rygar_init_state (writePins 0xf802 0xab)).1.fgTilemap.scrollX
      ≠ rygar_init_state.fgTilemap.scrollX := by
  refine ⟨by decide, by decide, by decide, by decide⟩

/-- Claim C10 as amended: a write to the third scroll byte stores the
byte in latch 2 and re-stores scroll-X recomputed from latches 0 and 1
alone, hence scroll-X is unchanged whenever it already equals that
recomputed value; besides that latch, the scroll register and the tick
counters, no machine state changes. -/
theorem C10_scroll_third_byte (s : RygarState) (p : Pins)
    (hm : p.mreq = true) (hw : p.wr = true) :
    (p.addr = 0xf802 →
      (rygar_tick_main 1 s p).1.main.fgScroll 2 = p.data ∧
      (rygar_tick_main 1 s p).1.main.fgScroll 0 = s.main.fgScroll 0 ∧
      (rygar_tick_main 1 s p).1.main.fgScroll 1 = s.main.fgScroll 1 ∧
      (rygar_tick_main 1 s p).1.fgTilemap.scrollX =
        (((s.main.fgScroll 1) <<< 8 ||| (s.main.fgScroll 0)) + SCROLL_OFFSET) % 0x10000 ∧
      (s.fgTilemap.scrollX =
          (((s.main.fgScroll 1) <<< 8 ||| (s.main.fgScroll 0)) + SCROLL_OFFSET) % 0x10000 →
        (rygar_tick_main 1 s p).1.fgTilemap.scrollX = s.fgTilemap.scrollX) ∧
      (rygar_tick_main 1 s p).1.fgTilemap.dirty = s.fgTilemap.dirty ∧
      (rygar_tick_main 1 s p).1.main.mem = s.main.mem ∧
      (rygar_tick_main 1 s p).1.main.currentBank = s.main.currentBank ∧
      (rygar_tick_main 1 s p).1.main.bankedRom = s.main.bankedRom ∧
      (rygar_tick_main 1 s p).1.main.joystick = s.main.joystick ∧
      (rygar_tick_main 1 s p).1.main.buttons = s.main.buttons ∧
      (rygar_tick_main 1 s p).1.main.sys = s.main.sys ∧
      (rygar_tick_main 1 s p).1.main.bgScroll = s.main.bgScroll ∧
      (rygar_tick_main 1 s p).1.bgTilemap = s.bgTilemap ∧
      (rygar_tick_main 1 s p).1.charTilemap = s.charTilemap ∧
      (rygar_tick_main 1 s p).1.palette = s.palette) ∧
    (p.addr = 0xf805 →
      (rygar_tick_main 1 s p).1.main.bgScroll 2 = p.data ∧
      (rygar_tick_main 1 s p).1.main.bgScroll 0 = s.main.bgScroll 0 ∧
      (rygar_tick_main 1 s p).1.main.bgScroll 1 = s.main.bgScroll 1 ∧
      (rygar_tick_main 1 s p).1.bgTilemap.scrollX =
        (((s.main.bgScroll 1) <<< 8 ||| (s.main.bgScroll 0)) + SCROLL_OFFSET) % 0x10000 ∧
      (s.bgTilemap.scrollX =
          (((s.main.bgScroll 1) <<< 8 ||| (s.main.bgScroll 0)) + SCROLL_OFFSET) % 0x10000 →
        (rygar_tick_main 1 s p).1.bgTilemap.scrollX = s.bgTilemap.scrollX) ∧
      (rygar_tick_main 1 s p).1.bgTilemap.dirty = s.bgTilemap.dirty ∧
      (rygar_tick_main 1 s p).1.main.mem = s.main.mem ∧
      (rygar_tick_main 1 s p).1.main.fgScroll = s.main.fgScroll ∧
      (rygar_tick_main 1 s p).1.fgTilemap = s.fgTilemap ∧
      (rygar_tick_main 1 s p).1.charTilemap = s.charTilemap ∧
      (rygar_tick_main 1 s p).1.palette = s.palette) := by
  rw [tick_write s p hm hw]
  constructor
  · intro ha
    have hr : ¬ (RAM_START ≤ p.addr ∧ p.addr ≤ RAM_END) := by
      simp only [RAM_START, RAM_END]; omega
    have hf : FG_SCROLL_START ≤ p.addr ∧ p.addr ≤ FG_SCROLL_END := by
      simp only [FG_SCROLL_START, FG_SCROLL_END]; omega
    have ho : p.addr - FG_SCROLL_START = 2 := by
      simp only [FG_SCROLL_START]; omega
    simp [busWrite, tilemap_set_scroll_x, hr, hf, ho]
    exact fun h => h.symm
  · intro ha
    have hr : ¬ (RAM_START ≤ p.addr ∧ p.addr ≤ RAM_END) := by
      simp only [RAM_START, RAM_END]; omega
    have hf : ¬ (FG_SCROLL_START ≤ p.addr ∧ p.addr ≤ FG_SCROLL_END) := by
      simp only [FG_SCROLL_START, FG_SCROLL_END]; omega
    have hb : BG_SCROLL_START ≤ p.addr ∧ p.addr ≤ BG_SCROLL_END := by
      simp only [BG_SCROLL_START, BG_SCROLL_END]; omega
    have ho : p.addr - BG_SCROLL_START = 2 := by
      simp only [BG_SCROLL_START]; omega
    simp [busWrite, tilemap_set_scroll_x, hr, hf, hb, ho]
    exact fun h => h.symm

/-- Claim C10 witness: after a scroll write that fixed scroll-X, a
write of 0x77 to 0xF802 stores the byte and leaves scroll-X at 0x240. -/
theorem C10_scroll_third_byte_witness :
    (rygar_tick_main 1
        (rygar_tick_main 1
          (rygar_tick_main 1 rygar_init_state (writePins 0xf800 0x10)).1
          (writePins 0xf801 0x02)).1
        (writePins 0xf802 0x77)).1.main.fgScroll 2 = 0x77 ∧
    (rygar_tick_main 1
        (rygar_tick_main 1
          (rygar_tick_main 1 rygar_init_state (writePins 0xf800 0x10)).1
          (writePins 0xf801 0x02)).1
        (writePins 0xf802 0x77)).1.fgTilemap.scrollX = 0x240 := by
  have h := (C10_scroll_third_byte
    (rygar_tick_main 1
      (rygar_tick_main 1 rygar_init_state (writePins 0xf800 0x10)).1
      (writePins 0xf801 0x02)).1
    (writePins 0xf802 0x77) rfl rfl).1 rfl
  exact ⟨h.1, h.2.2.2.1.trans (by decide)⟩

/-- Claim C5: a CPU write in 0xD000..=0xDFFF marks exactly one tile of
exactly one tilemap dirty: the char tile (addr - 0xD000) &&& 0x3FF for
0xD000..=0xD7FF, the fg tile (addr - 0xD800) &&& 0x1FF for
0xD800..=0xDBFF, and the bg tile (addr - 0xDC00) &&& 0x1FF for
0xDC00..=0xDFFF, the other two dirty bitsets being untouched. -/
theorem C5_tile_dirty (s : RygarState) (p : Pins)
    (hm : p.mreq = true) (hw : p.wr = true)
    (hcd : s.charTilemap.cols * s.charTilemap.rows = 1024)
    (hfd : s.fgTilemap.cols * s.fgTilemap.rows = 512)
    (hbd : s.bgTilemap.cols * s.bgTilemap.rows = 512) :
    (CHAR_RAM_START ≤ p.addr → p.addr ≤ CHAR_RAM_END →
      (rygar_tick_main 1 s p).1.charTilemap.dirty =
        (fun i => if i = (p.addr - CHAR_RAM_START) &&& 0x3ff then true
                  else s.charTilemap.dirty i) ∧
      (rygar_tick_main 1 s p).1.fgTilemap.dirty = s.fgTilemap.dirty ∧
      (rygar_tick_main 1 s p).1.bgTilemap.dirty = s.bgTilemap.dirty) ∧
    (FG_RAM_START ≤ p.addr → p.addr ≤ FG_RAM_END →
      (rygar_tick_main 1 s p).1.fgTilemap.dirty =
        (fun i => if i = (p.addr - FG_RAM_START) &&& 0x1ff then true
                  else s.fgTilemap.dirty i) ∧
      (rygar_tick_main 1 s p).1.charTilemap.dirty = s.charTilemap.dirty ∧
      (rygar_tick_main 1 s p).1.bgTilemap.dirty = s.bgTilemap.dirty) ∧
    (BG_RAM_START ≤ p.addr → p.addr ≤ BG_RAM_END →
      (rygar_tick_main 1 s p).1.bgTilemap.dirty =
        (fun i => if i = (p.addr - BG_RAM_START) &&& 0x1ff then true
                  else s.bgTilemap.dirty i) ∧
      (rygar_tick_main 1 s p).1.charTilemap.dirty = s.charTilemap.dirty ∧
      (rygar_tick_main 1 s p).1.fgTilemap.dirty = s.fgTilemap.dirty) := by
  rw [tick_write s p hm hw]
  refine ⟨fun h1 h2 => ?_, fun h1 h2 => ?_, fun h1 h2 => ?_⟩
  · have hr : RAM_START ≤ p.addr ∧ p.addr ≤ RAM_END := by
      simp only [RAM_START, RAM_END, CHAR_RAM_START, CHAR_RAM_END] at *
      omega
    have hc : CHAR_RAM_START ≤ p.addr ∧ p.addr ≤ CHAR_RAM_END := ⟨h1, h2⟩
    have hmod : ((p.addr - CHAR_RAM_START) &&& 0x3ff) % 1024 =
        (p.addr - CHAR_RAM_START) &&& 0x3ff :=
      Nat.mod_eq_of_lt (Nat.and_lt_two_pow _ (show (0x3ff : Nat) < 2 ^ 10 by norm_num))
    simp [busWrite, tilemap_mark_tile_dirty, hr, hc, hcd, hmod]
  · have hr : RAM_START ≤ p.addr ∧ p.addr ≤ RAM_END := by
      simp only [RAM_START, RAM_END, FG_RAM_START, FG_RAM_END] at *
      omega
    have hc : ¬ (CHAR_RAM_START ≤ p.addr ∧ p.addr ≤ CHAR_RAM_END) := by
      simp only [CHAR_RAM_START, CHAR_RAM_END, FG_RAM_START, FG_RAM_END] at *
      omega
    have hf : FG_RAM_START ≤ p.addr ∧ p.addr ≤ FG_RAM_END := ⟨h1, h2⟩
    have hmod : ((p.addr - FG_RAM_START) &&& 0x1ff) % 512 =
        (p.addr - FG_RAM_START) &&& 0x1ff :=
      Nat.mod_eq_of_lt (Nat.and_lt_two_pow _ (show (0x1ff : Nat) < 2 ^ 9 by norm_num))
    simp [busWrite, tilemap_mark_tile_dirty, hr, hc, hf, hfd, hmod]
  · have hr : RAM_START ≤ p.addr ∧ p.addr ≤ RAM_END := by
      simp only [RAM_START, RAM_END, BG_RAM_START, BG_RAM_END] at *
      omega
    have hc : ¬ (CHAR_RAM_START ≤ p.addr ∧ p.addr ≤ CHAR_RAM_END) := by
      simp only [CHAR_RAM_START, CHAR_RAM_END, BG_RAM_START, BG_RAM_END] at *
      omega
    have hf : ¬ (FG_RAM_START ≤ p.addr ∧ p.addr ≤ FG_RAM_END) := by
      simp only [FG_RAM_START, FG_RAM_END, BG_RAM_START, BG_RAM_END] at *
      omega
    have hb : BG_RAM_START ≤ p.addr ∧ p.addr ≤ BG_RAM_END := ⟨h1, h2⟩
    have hmod : ((p.addr - BG_RAM_START) &&& 0x1ff) % 512 =
        (p.addr - BG_RAM_START) &&& 0x1ff :=
      Nat.mod_eq_of_lt (Nat.and_lt_two_pow _ (show (0x1ff : Nat) < 2 ^ 9 by norm_num))
    simp [busWrite, tilemap_mark_tile_dirty, hr, hc, hf, hb, hbd, hmod]

/-- Claim C5 witness: a write to 0xD801 marks only fg tile 1 dirty, and
a write to 0xDA01 marks the same fg tile 1. -/
theorem C5_tile_dirty_witness :
    ((rygar_tick_main 1 rygar_init_state (writePins 0xd801 0x33)).1.fgTilemap.dirty =
      (fun i => if i = 1 then true else rygar_init_state.fgTilemap.dirty i)) ∧
    (rygar_tick_main 1 rygar_init_state (writePins 0xd801 0x33)).1.charTilemap.dirty =
      rygar_init_state.charTilemap.dirty ∧
    (rygar_tick_main 1 rygar_init_state (writePins 0xd801 0x33)).1.bgTilemap.dirty =
      rygar_init_state.bgTilemap.dirty ∧
    ((rygar_tick_main 1 rygar_init_state (writePins 0xda01 0x33)).1.fgTilemap.dirty =
      (fun i => if i = 1 then true else rygar_init_state.fgTilemap.dirty i)) := by
  have h1 := (C5_tile_dirty rygar_init_state (writePins 0xd801 0x33)
    rfl rfl rfl rfl rfl).2.1 (by decide) (by decide)
  have h2 := (C5_tile_dirty rygar_init_state (writePins 0xda01 0x33)
    rfl rfl rfl rfl rfl).2.1 (by decide) (by decide)
  exact ⟨h1.1, h1.2.1, h1.2.2, h2.1⟩

/-- A tick with a positive vblank count (or one that reloads vsync)
asserts the INT flag. -/
theorem vsyncUpdate_assert_of_pos (v b : Int) (hb : 0 < b) :
    (vsyncUpdate 1 v b).2.2 = true := by
  by_cases h : v - 1 ≤ 0
  · simp [vsyncUpdate, VSYNC_PERIOD_4MHZ, VBLANK_DURATION_4MHZ, h]
  · simp [vsyncUpdate, VSYNC_PERIOD_4MHZ, VBLANK_DURATION_4MHZ, h, hb]

/-- A tick with vblank count at most 0 and no vsync reload does not
assert the INT flag. -/
theorem vsyncUpdate_noassert (v b : Int) (hb : b ≤ 0) (hv : 1 < v) :
    (vsyncUpdate 1 v b).2.2 = false := by
  have h : ¬ (v - 1 ≤ 0) := by omega
  have h2 : ¬ (0 < b) := by omega
  simp [vsyncUpdate, VSYNC_PERIOD_4MHZ, VBLANK_DURATION_4MHZ, h, h2]

/-- Claim C4, counterexample: an acknowledge during VBLANK clears INT
in the returned bus word for that cycle, but the very next tick still
has vblank_count positive and the callback asserts INT again, so INT
does not stay deasserted until the next vsync reload. -/
theorem C4_counterexample :
    (rygar_tick_main 1
        { rygar_init_state with vsyncCount := 50000, vblankCount := 100 }
        ackPins).2.intPin = false ∧
    0 < (rygar_tick_main 1
        { rygar_init_state with vsyncCount := 50000, vblankCount := 100 }
        ackPins).1.vblankCount ∧
    (rygar_tick_main 1
        (rygar_tick_main 1
          { rygar_init_state with vsyncCount := 50000, vblankCount := 100 }
          ackPins).1 idlePins).2.intPin = true := by
  refine ⟨by decide, by decide, by decide⟩

/-- Claim C4 as amended: a tick with IORQ and M1 (and no MREQ) returns
the bus word with INT cleared on that cycle; on the following tick INT
is asserted again whenever vblank_count is still positive (or a vsync
reload occurs), and once vblank_count has reached 0 INT stays
deasserted on non-reloading ticks until the next vsync reload. -/
theorem C4_int_ack (s : RygarState) (p : Pins)
    (hm : p.mreq = false) (hio : p.iorq = true) (hm1 : p.m1 = true) :
    ((rygar_tick_main 1 s p).2.intPin = false) ∧
    (∀ q : Pins, q.iorq = false →
      0 < (rygar_tick_main 1 s p).1.vblankCount →
      (rygar_tick_main 1 (rygar_tick_main 1 s p).1 q).2.intPin = true) ∧
    (∀ q : Pins, q.iorq = false → q.intPin = false →
      (rygar_tick_main 1 s p).1.vblankCount ≤ 0 →
      1 < (rygar_tick_main 1 s p).1.vsyncCount →
      (rygar_tick_main 1 (rygar_tick_main 1 s p).1 q).2.intPin = false) := by
  refine ⟨?_, ?_, ?_⟩
  · simp [rygar_tick_main, hm, hio, hm1]
  · intro q hq hvb
    generalize (rygar_tick_main 1 s p).1 = s2 at hvb ⊢
    have hflag : (vsyncUpdate 1 s2.vsyncCount s2.vblankCount).2.2 = true :=
      vsyncUpdate_assert_of_pos _ _ hvb
    cases hmq : q.mreq
    · cases hwq : q.wr <;> cases hrq : q.rd <;>
        simp [rygar_tick_main, hmq, hq, hflag]
    · cases hwq : q.wr <;> cases hrq : q.rd <;>
        simp [rygar_tick_main, hmq, hwq, hrq, hq, hflag]
  · intro q hq hqi hvb hvs
    generalize (rygar_tick_main 1 s p).1 = s2 at hvb hvs ⊢
    have hflag : (vsyncUpdate 1 s2.vsyncCount s2.vblankCount).2.2 = false :=
      vsyncUpdate_noassert _ _ hvb hvs
    cases hmq : q.mreq
    · cases hwq : q.wr <;> cases hrq : q.rd <;>
        simp [rygar_tick_main, hmq, hq, hqi, hflag]
    · cases hwq : q.wr <;> cases hrq : q.rd <;>
        simp [rygar_tick_main, hmq, hwq, hrq, hq, hqi, hflag]

/-- Claim C4 witness: with vblank_count at 100 an acknowledge clears
INT for one cycle and the next idle tick re-asserts it; with
vblank_count at 0 the next idle tick keeps INT deasserted. -/
theorem C4_int_ack_witness :
    ((rygar_tick_main 1
        { rygar_init_state with vsyncCount := 50000, vblankCount := 100 }
        ackPins).2.intPin = false) ∧
    (rygar_tick_main 1
        (rygar_tick_main 1
          { rygar_init_state with vsyncCount := 50000, vblankCount := 100 }
          ackPins).1 idlePins).2.intPin = true ∧
    (rygar_tick_main 1
        (rygar_tick_main 1
          { rygar_init_state with vsyncCount := 50000, vblankCount := 0 }
          ackPins).1 idlePins).2.intPin = false := by
  refine ⟨(C4_int_ack
      { rygar_init_state with vsyncCount := 50000, vblankCount := 100 }
      ackPins rfl rfl rfl).1,
    (C4_int_ack
      { rygar_init_state with vsyncCount := 50000, vblankCount := 100 }
      ackPins rfl rfl rfl).2.1 idlePins rfl (by decide),
    (C4_int_ack
      { rygar_init_state with vsyncCount := 50000, vblankCount := 0 }
      ackPins rfl rfl rfl).2.2 idlePins rfl rfl (by decide) (by decide)⟩

/-! ### The vsync/vblank cycle -/

/-- Unfolding equation for traceC. -/
theorem traceC_succ (s : Int × Int) (n : Nat) :
    traceC s (n + 1) = (tickCounter (traceC s n)).1 := rfl

/-- Unfolding equation for countINT. -/
theorem countINT_succ (s : Int × Int) (n : Nat) :
    countINT s (n + 1) =
      countINT s n + (if (tickCounter (traceC s n)).2 then 1 else 0) := rfl

/-- A one-tick call that brings vsync_count to 0 or below reloads the
counters and asserts INT. -/
theorem tickCounter_reload (v b : Int) (hv : v ≤ 1) :
    tickCounter (v, b) = ((v + 66665, 5291), true) := by
  have h : v - 1 ≤ 0 := by omega
  simp only [tickCounter, vsyncUpdate, VSYNC_PERIOD_4MHZ, VBLANK_DURATION_4MHZ,
    if_pos h, Prod.ext_iff]
  norm_num
  omega

/-- A one-tick call inside the vblank window (no reload) decrements
both counters and asserts INT. -/
theorem tickCounter_run (v b : Int) (hv : 1 < v) (hb : 0 < b) :
    tickCounter (v, b) = ((v - 1, b - 1), true) := by
  have h : ¬ (v - 1 ≤ 0) := by omega
  simp [tickCounter, vsyncUpdate, VSYNC_PERIOD_4MHZ, VBLANK_DURATION_4MHZ, h, hb]

/-- A one-tick call outside the vblank window (no reload) decrements
vsync_count, clamps vblank_count to 0 and does not assert INT. -/
theorem tickCounter_idle (v b : Int) (hv : 1 < v) (hb : ¬ 0 < b) :
    tickCounter (v, b) = ((v - 1, 0), false) := by
  have h : ¬ (v - 1 ≤ 0) := by omega
  simp [tickCounter, vsyncUpdate, VSYNC_PERIOD_4MHZ, VBLANK_DURATION_4MHZ, h, hb]

/-- Closed form of the counter trajectory inside the vblank phase of a
period, starting just after a reload tick. -/
theorem trace_steady_lo : ∀ n : Nat, n ≤ 5291 →
    traceC steadyCounters n = ((66666 : Int) - n, (5291 : Int) - n) := by
  intro n
  induction n with
  | zero =>
    intro _
    decide
  | succ k ih =>
    intro hk
    rw [traceC_succ, ih (by omega), tickCounter_run _ _ (by omega) (by omega)]
    simp only [Prod.mk.injEq, and_true, true_and]
    omega

/-- Closed form of the counter trajectory after the vblank phase of a
period: vblank_count stays clamped at 0. -/
theorem trace_steady_hi : ∀ n : Nat, 5291 ≤ n → n ≤ 66665 →
    traceC steadyCounters n = ((66666 : Int) - n, 0) := by
  intro n
  induction n with
  | zero => intro h _; omega
  | succ k ih =>
    intro h1 h2
    by_cases hk : 5291 ≤ k
    · rw [traceC_succ, ih hk (by omega), tickCounter_idle _ _ (by omega) (by omega)]
      simp only [Prod.mk.injEq, and_true, true_and]
      omega
    · have hk1 : k + 1 = 5291 := by omega
      rw [hk1, trace_steady_lo 5291 (by omega)]
      simp only [Prod.mk.injEq, and_true, true_and]
      omega

/-- The counter trajectory is periodic with period 66_666 from the
steady state on. -/
theorem trace_steady_period : traceC steadyCounters 66666 = steadyCounters := by
  have h66 : (66666 : Nat) = 66665 + 1 := rfl
  rw [h66, traceC_succ, trace_steady_hi 66665 (by omega) (by omega),
    tickCounter_reload _ _ (by omega)]
  decide

/-- Every tick of the vblank phase asserts INT: the count climbs one
per tick up to 5_291. -/
theorem countINT_steady_lo : ∀ n : Nat, n ≤ 5291 →
    countINT steadyCounters n = n := by
  intro n
  induction n with
  | zero => intro _; rfl
  | succ k ih =>
    intro hk
    rw [countINT_succ, ih (by omega), trace_steady_lo k (by omega),
      tickCounter_run _ _ (by omega) (by omega)]
    simp

/-- No tick between the end of the vblank phase and the reload asserts
INT: the count stays at 5_291. -/
theorem countINT_steady_hi : ∀ n : Nat, 5291 ≤ n → n ≤ 66665 →
    countINT steadyCounters n = 5291 := by
  intro n
  induction n with
  | zero => intro h _; omega
  | succ k ih =>
    intro h1 h2
    by_cases hk : 5291 ≤ k
    · rw [countINT_succ, ih hk (by omega), trace_steady_hi k hk (by omega),
        tickCounter_idle _ _ (by omega) (by omega)]
      simp
    · have hk1 : k + 1 = 5291 := by omega
      rw [hk1]
      exact countINT_steady_lo 5291 (by omega)

/-- A full steady-state period of 66_666 one-tick calls asserts INT on
exactly 5_292 of them. -/
theorem countINT_steady_full : countINT steadyCounters 66666 = 5292 := by
  have h66 : (66666 : Nat) = 66665 + 1 := rfl
  rw [h66, countINT_succ, countINT_steady_hi 66665 (by omega) (by omega),
    trace_steady_hi 66665 (by omega) (by omega), tickCounter_reload _ _ (by omega)]
  simp

/-- Running a + b ticks is running a ticks and then b ticks. -/
theorem traceC_add (s : Int × Int) (a b : Nat) :
    traceC s (a + b) = traceC (traceC s a) b := by
  induction b with
  | zero => rfl
  | succ k ih =>
    rw [show a + (k + 1) = (a + k) + 1 from rfl, traceC_succ, ih, traceC_succ]

/-- The INT count over a + b ticks splits at tick a. -/
theorem countINT_add (s : Int × Int) (a b : Nat) :
    countINT s (a + b) = countINT s a + countINT (traceC s a) b := by
  induction b with
  | zero => simp [countINT]
  | succ k ih =>
    rw [show a + (k + 1) = (a + k) + 1 from rfl, countINT_succ, ih, countINT_succ,
      traceC_add, Nat.add_assoc]

/-- Every window of 66_666 consecutive one-tick calls that starts at or
after the first reload contains exactly 5_292 INT assertions. -/
theorem countINT_window : ∀ k : Nat, countINT (traceC steadyCounters k) 66666 = 5292 := by
  intro k
  induction k with
  | zero => exact countINT_steady_full
  | succ k ih =>
    have hper : traceC (traceC steadyCounters k) 66666 = traceC steadyCounters k := by
      rw [← traceC_add, Nat.add_comm k 66666, traceC_add, trace_steady_period]
    have h4 : traceC (traceC steadyCounters k) 1 = traceC steadyCounters (k + 1) :=
      (traceC_add _ k 1).symm
    have h1 : countINT (traceC steadyCounters k) (66666 + 1)
        = 5292 + countINT (traceC steadyCounters k) 1 := by
      rw [countINT_add, ih, hper]
    have h2 : countINT (traceC steadyCounters k) (1 + 66666)
        = countINT (traceC steadyCounters k) 1
            + countINT (traceC steadyCounters (k + 1)) 66666 := by
      rw [countINT_add, h4]
    rw [Nat.add_comm 1 66666] at h2
    omega

/-- The init state reaches the steady state at its first reload, after
66_666 ticks with vblank_count pinned at 0. -/
theorem trace_init : ∀ n : Nat, n ≤ 66665 →
    traceC initCounters n = ((66666 : Int) - n, 0) := by
  intro n
  induction n with
  | zero =>
    intro _
    decide
  | succ k ih =>
    intro hk
    rw [traceC_succ, ih (by omega), tickCounter_idle _ _ (by omega) (by omega)]
    simp only [Prod.mk.injEq, and_true, true_and]
    omega

/-- After 66_666 ticks from init the counters sit at the steady
state. -/
theorem trace_init_to_steady : traceC initCounters 66666 = steadyCounters := by
  have h66 : (66666 : Nat) = 66665 + 1 := rfl
  rw [h66, traceC_succ, trace_init 66665 (by omega)]
  rw [tickCounter_reload _ _ (by omega)]
  decide

/-- busWrite never changes vsync_count. -/
theorem busWrite_vsyncCount (s : RygarState) (a d : Nat) :
    (busWrite s a d).vsyncCount = s.vsyncCount := by
  simp only [busWrite]
  split_ifs <;> rfl

/-- busWrite never changes vblank_count. -/
theorem busWrite_vblankCount (s : RygarState) (a d : Nat) :
    (busWrite s a d).vblankCount = s.vblankCount := by
  simp only [busWrite]
  split_ifs <;> rfl

/-- The counters of the full tick callback follow tickCounter,
whatever the bus cycle does. -/
theorem tick_counters (s : RygarState) (p : Pins) :
    ((rygar_tick_main 1 s p).1.vsyncCount, (rygar_tick_main 1 s p).1.vblankCount)
      = (tickCounter (s.vsyncCount, s.vblankCount)).1 := by
  cases hm : p.mreq
  · cases hi : p.iorq <;> cases h1 : p.m1 <;>
      simp [rygar_tick_main, tickCounter, hm, hi, h1]
  · cases hw : p.wr
    · cases hr : p.rd <;> simp [rygar_tick_main, tickCounter, hm, hw, hr]
    · simp [rygar_tick_main, tickCounter, hm, hw,
        busWrite_vsyncCount, busWrite_vblankCount]

/-- On a cycle with no memory request and no acknowledge, the INT pin
of the returned bus word is the incoming INT pin OR-ed with the
tickCounter assert flag. -/
theorem tick_intPin (s : RygarState) (p : Pins)
    (hm : p.mreq = false) (hio : p.iorq = false) :
    (rygar_tick_main 1 s p).2.intPin
      = (p.intPin || (tickCounter (s.vsyncCount, s.vblankCount)).2) := by
  simp [rygar_tick_main, tickCounter, hm, hio]

/-- Claim C1, counterexample: with vsync_count at 1 a single tick
reloads the counter by adding 66_666 (C truncating division of
4_000_000 by 60), not 66_667, and sets vblank_count to 5_292 (observed
as 5_291 after the same tick decrements it), not 5_333. -/
theorem C1_counterexample :
    (rygar_tick_main 1 { rygar_init_state with vsyncCount := 1 } idlePins).1.vsyncCount
      = 66666 ∧
    (rygar_tick_main 1 { rygar_init_state with vsyncCount := 1 } idlePins).1.vsyncCount
      ≠ 1 - 1 + 66667 ∧
    (rygar_tick_main 1 { rygar_init_state with vsyncCount := 1 } idlePins).1.vblankCount
      = 5292 - 1 ∧
    (rygar_tick_main 1 { rygar_init_state with vsyncCount := 1 } idlePins).1.vblankCount
      ≠ 5333 - 1 ∧
    VSYNC_PERIOD_4MHZ ≠ 66667 ∧ VBLANK_DURATION_4MHZ ≠ 5333 := by
  refine ⟨by decide, by decide, by decide, by decide, by decide, by decide⟩

/-- Claim C1 as amended: the period is VSYNC_PERIOD_4MHZ = 66_666
ticks and the blank duration VBLANK_DURATION_4MHZ = 5_292 ticks; a
tick that brings vsync_count to 0 or below adds 66_666 and sets
vblank_count to 5_292 (immediately decremented on the same tick); over
every window of 66_666 consecutive one-tick calls at or after the
first reload, INT is asserted on exactly 5_292 of them (no acknowledge
intervening); and the counter trajectory of rygar_tick_main is exactly
tickCounter, with INT OR-ed onto the bus accordingly. -/
theorem C1_vsync_window :
    VSYNC_PERIOD_4MHZ = 66666 ∧
    VBLANK_DURATION_4MHZ = 5292 ∧
    (∀ v b : Int, v ≤ 1 → tickCounter (v, b) = ((v + 66665, 5291), true)) ∧
    (∀ k : Nat, countINT (traceC steadyCounters k) 66666 = 5292) ∧
    traceC initCounters 66666 = steadyCounters ∧
    (∀ (s : RygarState) (p : Pins),
      ((rygar_tick_main 1 s p).1.vsyncCount, (rygar_tick_main 1 s p).1.vblankCount)
        = (tickCounter (s.vsyncCount, s.vblankCount)).1) ∧
    (∀ (s : RygarState) (p : Pins), p.mreq = false → p.iorq = false →
      (rygar_tick_main 1 s p).2.intPin
        = (p.intPin || (tickCounter (s.vsyncCount, s.vblankCount)).2)) :=
  ⟨by decide, by decide, tickCounter_reload, countINT_window,
    trace_init_to_steady, tick_counters, tick_intPin⟩

/-- Claim C1 witness: the reload equation at vsync_count 1, and the
counter and INT behaviour of a concrete idle tick from init. -/
theorem C1_vsync_window_witness :
    tickCounter (1, 0) = ((1 + 66665, 5291), true) ∧
    ((rygar_tick_main 1 rygar_init_state idlePins).1.vsyncCount,
        (rygar_tick_main 1 rygar_init_state idlePins).1.vblankCount)
      = (tickCounter (rygar_init_state.vsyncCount, rygar_init_state.vblankCount)).1 ∧
    (rygar_tick_main 1 rygar_init_state idlePins).2.intPin = false := by
  refine ⟨C1_vsync_window.2.2.1 1 0 (by decide),
    C1_vsync_window.2.2.2.2.2.1 rygar_init_state idlePins,
    (C1_vsync_window.2.2.2.2.2.2 rygar_init_state idlePins rfl rfl).trans (by decide)⟩

end Rygar
